import Mathlib

/-!
Verification of the Compliance Alert Engine of `fa_advisor_ui`.

Shallow embedding of the engine's core:
- the Rule Evaluator and scan orchestration of
  `src/server/services/compliance.ts` (`scanComplianceIssues`);
- the Alert History Ledger admit-and-filter step of
  `src/server/jobs/complianceScan.ts` (`getNewAlerts`) and the advisor
  notification dispatch (`notifyAdvisorOfAlerts`);
- the Ledger cleanup of `src/server/jobs/cleanupAlertHistory.ts`
  (`cleanupOldAlertHistory`).

Conventions of the embedding:
- JavaScript wall-clock times (milliseconds since epoch) are `Int`;
  JavaScript numbers are `ℚ` (all arithmetic the engine performs on them is
  exact decimal arithmetic well inside the double-precision integer range,
  so exact rationals model it faithfully);
- nullable database columns are `Option`;
- the JS `Map` backing the Ledger is an insertion-ordered association list,
  with `Map.get`/`Map.set`/`Map.delete` semantics (`ledgerFind`/`ledgerSet`,
  and deletion rendered as a filter over a snapshot of the entries, exactly
  as the source iterates `Array.from(map.entries())`);
- `throw`/`await` failure propagation is the `Except String` monad;
- the rendered free-text fields `description` and `recommendation` of an
  alert are elided from the model (no verified property mentions them);
  the notification body is modelled structurally: the source renders the
  critical alerts into one headed block and the first five warning alerts
  into a second headed block of a single message, and the model records the
  alerts of each block.
-/

namespace FaAdvisor

/-- Milliseconds in one day, written as in the source: `1000 * 60 * 60 * 24`. -/
def msPerDay : Int := 1000 * 60 * 60 * 24

/-- `AlertSeverity` from `compliance.ts`. -/
inductive AlertSeverity
  | critical
  | warning
  | info
deriving DecidableEq

/-- `AlertType` from `compliance.ts`. -/
inductive AlertType
  | concentration_risk
  | suitability_mismatch
  | annual_review_due
  | large_position
  | underperforming
deriving DecidableEq

/-- The `riskTolerance` mysql enum of the `households` table. -/
inductive RiskTolerance
  | conservative
  | moderate
  | aggressive
deriving DecidableEq

/-- The string stored in the database for a risk tolerance. -/
def RiskTolerance.str : RiskTolerance → String
  | .conservative => "conservative"
  | .moderate => "moderate"
  | .aggressive => "aggressive"

/-- One record of `affectedHoldings` on an alert. -/
structure AffectedHolding where
  ticker : String
  percentage : ℚ
  value : ℚ
deriving DecidableEq

/-- `ComplianceAlert` from `compliance.ts` (the rendered `description` and
`recommendation` strings are elided, see the file header). -/
structure ComplianceAlert where
  id : String
  severity : AlertSeverity
  type : AlertType
  householdId : Nat
  householdName : String
  advisorId : Nat
  advisorName : String
  title : String
  affectedHoldings : Option (List AffectedHolding)
  createdAt : Int
deriving DecidableEq

/-- One row of the holdings query in `scanComplianceIssues` (lines 76-88). -/
structure Holding where
  ticker : String
  companyName : Option String
  currentValue : Option ℚ
  assetClass : Option String
  sector : Option String
  shares : ℚ
  costBasis : Option ℚ
deriving DecidableEq

/-- One row of the households query in `scanComplianceIssues` (lines 55-65):
`lastReviewDate` is selected from `households.updatedAt`, and `advisorName`
comes from a left join on `users` so it is nullable. -/
structure HouseholdRow where
  householdId : Nat
  householdName : String
  riskTolerance : Option RiskTolerance
  lastReviewDate : Option Int
  advisorId : Nat
  advisorName : Option String
deriving DecidableEq

/-- JS `s || fallback` on a string (the empty string is falsy). -/
def jsOr (s fallback : String) : String :=
  if s = "" then fallback else s

/-- JS `s || fallback` on a nullable string. -/
def jsOrOpt (s : Option String) (fallback : String) : String :=
  match s with
  | some v => jsOr v fallback
  | none => fallback

/-- `Number(h.currentValue || 0)`: the value of a holding, 0 when null. -/
def hval (x : Holding) : ℚ := x.currentValue.getD 0

/-- `householdHoldings.reduce((sum, h) => sum + Number(h.currentValue || 0), 0)`. -/
def totalValue (hs : List Holding) : ℚ :=
  hs.foldl (fun s x => s + hval x) 0

/-- `totalValue > 0 ? (holdingValue / totalValue) * 100 : 0` (line 98). -/
def pct (total : ℚ) (x : Holding) : ℚ :=
  if 0 < total then hval x / total * 100 else 0

/-- The concentration-risk alert pushed at lines 102-121. -/
def concAlert (now : Int) (h : HouseholdRow) (total : ℚ) (x : Holding) : ComplianceAlert :=
  { id := "conc_" ++ toString h.householdId ++ "_" ++ x.ticker
    severity := if 20 < pct total x then .critical else .warning
    type := .concentration_risk
    householdId := h.householdId
    householdName := jsOr h.householdName "Unknown"
    advisorId := h.advisorId
    advisorName := jsOrOpt h.advisorName "Unknown"
    title := "Concentration Risk: " ++ x.ticker
    affectedHoldings := some [⟨x.ticker, pct total x, hval x⟩]
    createdAt := now }

/-- Rule 1, concentration risk (lines 96-123): one alert per holding above
10% of portfolio value. -/
def concentrationAlerts (now : Int) (h : HouseholdRow) (total : ℚ)
    (hs : List Holding) : List ComplianceAlert :=
  hs.flatMap fun x => if 10 < pct total x then [concAlert now h total x] else []

/-- Equity exposure: sum of values of holdings with `assetClass === "equity"`
(lines 129-131). -/
def equityValue (hs : List Holding) : ℚ :=
  (hs.filter fun x => x.assetClass == some "equity").foldl (fun s x => s + hval x) 0

/-- The `if / else if / else if` chain setting `isSuitabilityIssue`
(lines 138-147); the three guards are mutually exclusive in `riskTolerance`,
so the chain is rendered arm by arm. -/
def suitabilityIssue (tol : RiskTolerance) (eqPct : ℚ) : Bool :=
  if tol = .conservative ∧ 40 < eqPct then true
  else if tol = .moderate ∧ (eqPct < 40 ∨ 70 < eqPct) then true
  else if tol = .aggressive ∧ eqPct < 70 then true
  else false

/-- The suitability-mismatch alert pushed at lines 150-162. -/
def suitAlert (now : Int) (h : HouseholdRow) (tol : RiskTolerance) : ComplianceAlert :=
  { id := "suit_" ++ toString h.householdId
    severity := .warning
    type := .suitability_mismatch
    householdId := h.householdId
    householdName := jsOr h.householdName "Unknown"
    advisorId := h.advisorId
    advisorName := jsOrOpt h.advisorName "Unknown"
    title := "Risk Profile Mismatch: " ++ tol.str.toUpper
    affectedHoldings := none
    createdAt := now }

/-- `equityPercentage` (line 132): `totalValue > 0 ? (equityValue /
totalValue) * 100 : 0`. -/
def equityPercentage (total : ℚ) (hs : List Holding) : ℚ :=
  if 0 < total then equityValue hs / total * 100 else 0

/-- Rule 2, suitability (lines 125-163): risk tolerance defaults to
`moderate`, and at most one alert is pushed. -/
def suitabilityAlerts (now : Int) (h : HouseholdRow) (total : ℚ)
    (hs : List Holding) : List ComplianceAlert :=
  if suitabilityIssue (h.riskTolerance.getD .moderate) (equityPercentage total hs) then
    [suitAlert now h (h.riskTolerance.getD .moderate)]
  else []

/-- `daysSinceReview` (lines 166-169): floor of the millisecond difference
divided by one day, `999` when there is no review date on record. -/
def daysSinceReview (now : Int) (h : HouseholdRow) : Int :=
  match h.lastReviewDate with
  | some t => (now - t).fdiv msPerDay
  | none => 999

/-- The annual-review alert pushed at lines 173-189. -/
def reviewAlert (now : Int) (h : HouseholdRow) (days : Int) : ComplianceAlert :=
  { id := "review_" ++ toString h.householdId
    severity := if 400 < days then .critical else .warning
    type := .annual_review_due
    householdId := h.householdId
    householdName := jsOr h.householdName "Unknown"
    advisorId := h.advisorId
    advisorName := jsOrOpt h.advisorName "Unknown"
    title := "Annual Review Overdue"
    affectedHoldings := none
    createdAt := now }

/-- Rule 3, annual review (lines 165-190). -/
def reviewAlerts (now : Int) (h : HouseholdRow) : List ComplianceAlert :=
  if 365 < daysSinceReview now h then [reviewAlert now h (daysSinceReview now h)] else []

/-- The large-position alert pushed at lines 204-221. -/
def largeAlert (now : Int) (h : HouseholdRow) (total : ℚ) (x : Holding) : ComplianceAlert :=
  { id := "large_" ++ toString h.householdId ++ "_" ++ x.ticker
    severity := .info
    type := .large_position
    householdId := h.householdId
    householdName := jsOr h.householdName "Unknown"
    advisorId := h.advisorId
    advisorName := jsOrOpt h.advisorName "Unknown"
    title := "Large Position: " ++ x.ticker
    affectedHoldings := some [⟨x.ticker, hval x / total * 100, hval x⟩]
    createdAt := now }

/-- `largePositions` (lines 193-196): holdings worth more than 100000. -/
def largePositions (hs : List Holding) : List Holding :=
  hs.filter fun x => decide ((100000 : ℚ) < hval x)

/-- Rule 4, large positions (lines 192-224): only when the portfolio total
exceeds 500000, and only above 5% of the portfolio. -/
def largePositionAlerts (now : Int) (h : HouseholdRow) (total : ℚ)
    (hs : List Holding) : List ComplianceAlert :=
  if 0 < (largePositions hs).length ∧ 500000 < total then
    (largePositions hs).flatMap fun x =>
      if 5 < hval x / total * 100 then [largeAlert now h total x] else []
  else []

/-- The underperforming alert pushed at lines 235-252. -/
def underAlert (now : Int) (h : HouseholdRow) (total : ℚ) (x : Holding) : ComplianceAlert :=
  { id := "under_" ++ toString h.householdId ++ "_" ++ x.ticker
    severity := .info
    type := .underperforming
    householdId := h.householdId
    householdName := jsOr h.householdName "Unknown"
    advisorId := h.advisorId
    advisorName := jsOrOpt h.advisorName "Unknown"
    title := "Underperforming: " ++ x.ticker
    affectedHoldings := some [⟨x.ticker, hval x / total * 100, hval x⟩]
    createdAt := now }

/-- `cost` (line 228): `Number(holding.shares) * Number(holding.costBasis || 0)`. -/
def holdingCost (x : Holding) : ℚ := x.shares * x.costBasis.getD 0

/-- `gainLossPercent` (line 231): 0 when the cost basis is zero or unknown. -/
def gainLossPercent (x : Holding) : ℚ :=
  if 0 < holdingCost x then (hval x - holdingCost x) / holdingCost x * 100 else 0

/-- Rule 5, underperforming holdings (lines 226-254). -/
def underperformingAlerts (now : Int) (h : HouseholdRow) (total : ℚ)
    (hs : List Holding) : List ComplianceAlert :=
  hs.flatMap fun x =>
    if gainLossPercent x < -20 ∧ 10000 < hval x then [underAlert now h total x] else []

/-- The five-rule battery run for one household inside the loop of
`scanComplianceIssues` (lines 93-254), pushed in source order. -/
def evaluateRules (now : Int) (h : HouseholdRow) (hs : List Holding) : List ComplianceAlert :=
  concentrationAlerts now h (totalValue hs) hs
    ++ suitabilityAlerts now h (totalValue hs) hs
    ++ reviewAlerts now h
    ++ largePositionAlerts now h (totalValue hs) hs
    ++ underperformingAlerts now h (totalValue hs) hs

/-- One iteration of the household loop, including the
`if (householdHoldings.length === 0) continue` at line 90. -/
def evaluateHousehold (now : Int) (h : HouseholdRow) (hs : List Holding) : List ComplianceAlert :=
  if hs.isEmpty then [] else evaluateRules now h hs

/-- The database handle of `scanComplianceIssues`: the households query
result and the per-household holdings query, which (like any `await`ed
query) can fail. -/
structure Db where
  households : List HouseholdRow
  fetchHoldings : Nat → Except String (List Holding)

/-- The optional advisor filter applied to the households query
(lines 67-69). -/
def selectedHouseholds (d : Db) (advisorId : Option Nat) : List HouseholdRow :=
  match advisorId with
  | some aid => d.households.filter fun h => h.advisorId == aid
  | none => d.households

/-- The `for (const household of householdsList)` loop of
`scanComplianceIssues` (lines 74-255): the loop body has no try/catch, so a
failing holdings query propagates out of the whole call and later
households are not evaluated. -/
def scanHouseholds (now : Int) (fetch : Nat → Except String (List Holding)) :
    List HouseholdRow → Except String (List ComplianceAlert)
  | [] => Except.ok []
  | h :: rest =>
    match fetch h.householdId with
    | Except.error e => Except.error e
    | Except.ok hs =>
      match scanHouseholds now fetch rest with
      | Except.error e => Except.error e
      | Except.ok tail => Except.ok (evaluateHousehold now h hs ++ tail)

/-- `scanComplianceIssues` (lines 46-258): throws `"Database not available"`
when `getDb()` yields nothing, otherwise scans the selected households. -/
def scanComplianceIssues (now : Int) (db : Option Db) (advisorId : Option Nat) :
    Except String (List ComplianceAlert) :=
  match db with
  | none => Except.error "Database not available"
  | some d => scanHouseholds now d.fetchHoldings (selectedHouseholds d advisorId)

/-- `AlertHistory` from `complianceScan.ts` (lines 15-19). -/
structure AlertHistory where
  alertId : String
  firstDetected : Int
  lastNotified : Int
deriving DecidableEq

/-- The `alertHistory` JS `Map` (line 22): an insertion-ordered association
list with unique keys. -/
abbrev Ledger := List (String × AlertHistory)

/-- `Map.get`. -/
def ledgerFind (m : Ledger) (k : String) : Option AlertHistory :=
  match m with
  | [] => none
  | (k2, v) :: rest => if k2 = k then some v else ledgerFind rest k

/-- `Map.set`: replace in place when the key exists, append otherwise. -/
def ledgerSet (m : Ledger) (k : String) (v : AlertHistory) : Ledger :=
  match m with
  | [] => [(k, v)]
  | (k2, v2) :: rest =>
    if k2 = k then (k, v) :: rest else (k2, v2) :: ledgerSet rest k v

/-- `daysSinceLastNotification` (line 102): millisecond difference divided
by one day, as an exact rational. -/
def daysSinceLastNotification (now last : Int) : ℚ :=
  ((now - last : Int) : ℚ) / ((msPerDay : Int) : ℚ)

/-- The body of the `for (const alert of allAlerts)` loop of `getNewAlerts`
(lines 89-109): the included alert (if any) and the updated history map. -/
def processAlert (now : Int) (hist : Ledger) (a : ComplianceAlert) :
    Option ComplianceAlert × Ledger :=
  match ledgerFind hist a.id with
  | none => (some a, ledgerSet hist a.id ⟨a.id, now, now⟩)
  | some e =>
    if 7 ≤ daysSinceLastNotification now e.lastNotified then
      (some a, ledgerSet hist a.id ⟨e.alertId, e.firstDetected, now⟩)
    else (none, hist)

/-- `getNewAlerts` (lines 85-112), with the mutable module-level `alertHistory`
map made an explicit argument and result. -/
def getNewAlerts (now : Int) :
    List ComplianceAlert → Ledger → List ComplianceAlert × Ledger
  | [], hist => ([], hist)
  | a :: rest, hist =>
    match processAlert now hist a with
    | (o, h1) =>
      match getNewAlerts now rest h1 with
      | (out, h2) =>
        match o with
        | some x => (x :: out, h2)
        | none => (out, h2)

/-- `cleanupOldAlertHistory` (lines 15-35): delete every entry whose
`firstDetected` is before `thirtyDaysAgo = now - 30 days`, iterating over a
snapshot of the entries, i.e. a filter keeping the rest. -/
def cleanupOldAlertHistory (now : Int) (hist : Ledger) : Ledger :=
  hist.filter fun p => ! decide (p.2.firstDetected < now - 30 * msPerDay)

/-- The single consolidated message rendered by `notifyAdvisorOfAlerts`
(lines 38-77), modelled structurally: the source renders `criticalAlerts`
under a `CRITICAL ALERTS` heading and the first five of `warningAlerts`
under a `WARNING ALERTS` heading, inside one email body. -/
structure AdvisorNotification where
  subject : String
  greeting : String
  criticalSection : List ComplianceAlert
  warningSection : List ComplianceAlert
deriving DecidableEq

/-- `notifyAdvisorOfAlerts` (lines 30-80): `none` means the early return at
lines 34-36, i.e. nothing is sent. -/
def notifyAdvisorOfAlerts (advisorName : String) (alerts : List ComplianceAlert) :
    Option AdvisorNotification :=
  if (alerts.filter fun a => a.severity == .critical).isEmpty
      && (alerts.filter fun a => a.severity == .warning).isEmpty then none
  else
    some
      { subject := "Compliance Alert Summary - "
          ++ toString (alerts.filter fun a => a.severity == .critical).length
          ++ " Critical, "
          ++ toString (alerts.filter fun a => a.severity == .warning).length
          ++ " Warnings"
        greeting := "Dear " ++ advisorName ++ ",\n\n"
        criticalSection := alerts.filter fun a => a.severity == .critical
        warningSection := (alerts.filter fun a => a.severity == .warning).take 5 }

/-! ### General helper lemmas -/

/-- A loop pushing at most one element per iteration is a filter-and-map. -/
lemma flatMap_guard {α β : Type} (p : α → Prop) [DecidablePred p] (g : α → β)
    (l : List α) :
    (l.flatMap fun x => if p x then [g x] else [])
      = (l.filter fun x => decide (p x)).map g := by
  induction l with
  | nil => rfl
  | cons x xs ih => by_cases hx : p x <;> simp [hx, ih]

lemma filter_type_eq_nil {t : AlertType} (l : List ComplianceAlert)
    (h : ∀ a ∈ l, a.type ≠ t) : l.filter (fun a => a.type == t) = [] := by
  rw [List.filter_eq_nil_iff]
  intro a ha
  simpa using h a ha

lemma filter_type_eq_self {t : AlertType} (l : List ComplianceAlert)
    (h : ∀ a ∈ l, a.type = t) : l.filter (fun a => a.type == t) = l := by
  rw [List.filter_eq_self]
  intro a ha
  simpa using h a ha

lemma filter_bne_eq_self {t : AlertType} (l : List ComplianceAlert)
    (h : ∀ a ∈ l, a.type ≠ t) : l.filter (fun a => a.type != t) = l := by
  rw [List.filter_eq_self]
  intro a ha
  simpa using h a ha

lemma filter_bne_eq_nil {t : AlertType} (l : List ComplianceAlert)
    (h : ∀ a ∈ l, a.type = t) : l.filter (fun a => a.type != t) = [] := by
  rw [List.filter_eq_nil_iff]
  intro a ha
  simpa using h a ha

/-! ### The shape of each rule's output -/

lemma concentrationAlerts_eq (now : Int) (h : HouseholdRow) (total : ℚ)
    (hs : List Holding) :
    concentrationAlerts now h total hs
      = (hs.filter fun x => decide (10 < pct total x)).map (concAlert now h total) :=
  flatMap_guard _ _ _

lemma mem_concentrationAlerts_type (now : Int) (h : HouseholdRow) (total : ℚ)
    (hs : List Holding) :
    ∀ a ∈ concentrationAlerts now h total hs, a.type = .concentration_risk := by
  intro a ha
  rw [concentrationAlerts_eq] at ha
  obtain ⟨x, _, rfl⟩ := List.mem_map.mp ha
  rfl

lemma mem_suitabilityAlerts_type (now : Int) (h : HouseholdRow) (total : ℚ)
    (hs : List Holding) :
    ∀ a ∈ suitabilityAlerts now h total hs, a.type = .suitability_mismatch := by
  intro a ha
  unfold suitabilityAlerts at ha
  split at ha <;> simp at ha <;> rcases ha with ⟨-, rfl⟩ <;> rfl

lemma mem_reviewAlerts_type (now : Int) (h : HouseholdRow) :
    ∀ a ∈ reviewAlerts now h, a.type = .annual_review_due := by
  intro a ha
  simp [reviewAlerts] at ha
  rcases ha with ⟨-, rfl⟩
  rfl

lemma mem_largePositionAlerts_type (now : Int) (h : HouseholdRow) (total : ℚ)
    (hs : List Holding) :
    ∀ a ∈ largePositionAlerts now h total hs, a.type = .large_position := by
  intro a ha
  simp [largePositionAlerts, List.mem_flatMap] at ha
  obtain ⟨-, -, x, -, -, rfl⟩ := ha
  rfl

lemma mem_underperformingAlerts_type (now : Int) (h : HouseholdRow) (total : ℚ)
    (hs : List Holding) :
    ∀ a ∈ underperformingAlerts now h total hs, a.type = .underperforming := by
  intro a ha
  simp [underperformingAlerts, List.mem_flatMap] at ha
  obtain ⟨x, -, -, rfl⟩ := ha
  rfl

/-! ### Filtering the evaluator's output by alert type -/

lemma evaluateRules_filter_conc (now : Int) (h : HouseholdRow) (hs : List Holding) :
    (evaluateRules now h hs).filter (fun a => a.type == AlertType.concentration_risk)
      = concentrationAlerts now h (totalValue hs) hs := by
  simp only [evaluateRules, List.filter_append]
  rw [filter_type_eq_self _ (mem_concentrationAlerts_type now h (totalValue hs) hs),
    filter_type_eq_nil _
      (fun a ha => by rw [mem_suitabilityAlerts_type now h (totalValue hs) hs a ha]; simp),
    filter_type_eq_nil _
      (fun a ha => by rw [mem_reviewAlerts_type now h a ha]; simp),
    filter_type_eq_nil _
      (fun a ha => by rw [mem_largePositionAlerts_type now h (totalValue hs) hs a ha]; simp),
    filter_type_eq_nil _
      (fun a ha => by rw [mem_underperformingAlerts_type now h (totalValue hs) hs a ha]; simp)]
  simp

lemma evaluateRules_filter_suit (now : Int) (h : HouseholdRow) (hs : List Holding) :
    (evaluateRules now h hs).filter (fun a => a.type == AlertType.suitability_mismatch)
      = suitabilityAlerts now h (totalValue hs) hs := by
  simp only [evaluateRules, List.filter_append]
  rw [filter_type_eq_self _ (mem_suitabilityAlerts_type now h (totalValue hs) hs),
    filter_type_eq_nil _
      (fun a ha => by rw [mem_concentrationAlerts_type now h (totalValue hs) hs a ha]; simp),
    filter_type_eq_nil _
      (fun a ha => by rw [mem_reviewAlerts_type now h a ha]; simp),
    filter_type_eq_nil _
      (fun a ha => by rw [mem_largePositionAlerts_type now h (totalValue hs) hs a ha]; simp),
    filter_type_eq_nil _
      (fun a ha => by rw [mem_underperformingAlerts_type now h (totalValue hs) hs a ha]; simp)]
  simp

lemma evaluateRules_filter_review (now : Int) (h : HouseholdRow) (hs : List Holding) :
    (evaluateRules now h hs).filter (fun a => a.type == AlertType.annual_review_due)
      = reviewAlerts now h := by
  simp only [evaluateRules, List.filter_append]
  rw [filter_type_eq_self _ (mem_reviewAlerts_type now h),
    filter_type_eq_nil _
      (fun a ha => by rw [mem_concentrationAlerts_type now h (totalValue hs) hs a ha]; simp),
    filter_type_eq_nil _
      (fun a ha => by rw [mem_suitabilityAlerts_type now h (totalValue hs) hs a ha]; simp),
    filter_type_eq_nil _
      (fun a ha => by rw [mem_largePositionAlerts_type now h (totalValue hs) hs a ha]; simp),
    filter_type_eq_nil _
      (fun a ha => by rw [mem_underperformingAlerts_type now h (totalValue hs) hs a ha]; simp)]
  simp

lemma evaluateRules_filter_large (now : Int) (h : HouseholdRow) (hs : List Holding) :
    (evaluateRules now h hs).filter (fun a => a.type == AlertType.large_position)
      = largePositionAlerts now h (totalValue hs) hs := by
  simp only [evaluateRules, List.filter_append]
  rw [filter_type_eq_self _ (mem_largePositionAlerts_type now h (totalValue hs) hs),
    filter_type_eq_nil _
      (fun a ha => by rw [mem_concentrationAlerts_type now h (totalValue hs) hs a ha]; simp),
    filter_type_eq_nil _
      (fun a ha => by rw [mem_suitabilityAlerts_type now h (totalValue hs) hs a ha]; simp),
    filter_type_eq_nil _
      (fun a ha => by rw [mem_reviewAlerts_type now h a ha]; simp),
    filter_type_eq_nil _
      (fun a ha => by rw [mem_underperformingAlerts_type now h (totalValue hs) hs a ha]; simp)]
  simp

/-! ### Sample data for witnesses -/

/-- A sample household row. -/
def wHh : HouseholdRow :=
  { householdId := 1, householdName := "Smith Family", riskTolerance := some .aggressive
    lastReviewDate := some 0, advisorId := 7, advisorName := some "Ann" }

/-- A sample equity holding worth 25000. -/
def wA : Holding :=
  { ticker := "AAPL", companyName := none, currentValue := some 25000
    assetClass := some "equity", sector := none, shares := 100, costBasis := none }

/-- A sample fixed-income holding worth 75000. -/
def wB : Holding :=
  { ticker := "BND", companyName := none, currentValue := some 75000
    assetClass := some "fixed_income", sector := none, shares := 100, costBasis := none }

/-- C2: for a household with positive portfolio value, the engine's filtered
concentration output is exactly one alert per holding above 10% of the
portfolio, `critical` above 20% and `warning` otherwise, and each alert's
`affectedHoldings` is the single offending record. -/
theorem concentration_rule_exact (now : Int) (h : HouseholdRow) (hs : List Holding)
    (hpos : 0 < totalValue hs) :
    (evaluateRules now h hs).filter (fun a => a.type == AlertType.concentration_risk)
      = (hs.filter fun x => decide (10 < pct (totalValue hs) x)).map (fun x =>
          { id := "conc_" ++ toString h.householdId ++ "_" ++ x.ticker
            severity := if 20 < pct (totalValue hs) x then AlertSeverity.critical
              else AlertSeverity.warning
            type := AlertType.concentration_risk
            householdId := h.householdId
            householdName := jsOr h.householdName "Unknown"
            advisorId := h.advisorId
            advisorName := jsOrOpt h.advisorName "Unknown"
            title := "Concentration Risk: " ++ x.ticker
            affectedHoldings := some [⟨x.ticker, pct (totalValue hs) x, hval x⟩]
            createdAt := now }) := by
  rw [evaluateRules_filter_conc, concentrationAlerts_eq]
  rfl

/-- Witness for C2 at a concrete portfolio: AAPL at 25% and BND at 75% of a
100000 portfolio yield exactly two concentration alerts. -/
theorem concentration_rule_exact_witness :
    0 < totalValue [wA, wB]
      ∧ ((evaluateRules 0 wHh [wA, wB]).filter
          (fun a => a.type == AlertType.concentration_risk)).length = 2 := by
  have hpos : 0 < totalValue [wA, wB] := by norm_num [totalValue, hval, wA, wB]
  refine ⟨hpos, ?_⟩
  rw [concentration_rule_exact 0 wHh [wA, wB] hpos, List.length_map]
  norm_num [pct, totalValue, hval, wA, wB, List.filter]

/-- The `isSuitabilityIssue` chain as the disjunction the spec states. -/
lemma suitabilityIssue_iff (tol : RiskTolerance) (q : ℚ) :
    suitabilityIssue tol q = true ↔
      (tol = .conservative ∧ 40 < q)
        ∨ (tol = .moderate ∧ (q < 40 ∨ 70 < q))
        ∨ (tol = .aggressive ∧ q < 70) := by
  rcases tol <;> simp [suitabilityIssue]

/-- The suitability output of the evaluator is the suitability rule alone. -/
lemma suitabilityAlerts_ne_nil_iff (now : Int) (h : HouseholdRow) (total : ℚ)
    (hs : List Holding) (hpos : 0 < total) :
    suitabilityAlerts now h total hs ≠ [] ↔
      suitabilityIssue (h.riskTolerance.getD .moderate)
        (equityValue hs / total * 100) = true := by
  unfold suitabilityAlerts equityPercentage
  rw [if_pos hpos]
  by_cases hc : suitabilityIssue (h.riskTolerance.getD .moderate)
      (equityValue hs / total * 100) = true
  · simp [hc]
  · simp [hc]

/-- C3: with positive portfolio value, the evaluator emits at most one
suitability alert, with severity `warning`, exactly when the defaulted risk
tolerance and the equity percentage satisfy the spec's three clauses. -/
theorem suitability_rule_exact (now : Int) (h : HouseholdRow) (hs : List Holding)
    (hpos : 0 < totalValue hs) :
    ((evaluateRules now h hs).filter
        (fun a => a.type == AlertType.suitability_mismatch)).length ≤ 1
      ∧ ((evaluateRules now h hs).filter
          (fun a => a.type == AlertType.suitability_mismatch) ≠ [] ↔
            (h.riskTolerance.getD RiskTolerance.moderate = RiskTolerance.conservative
                ∧ 40 < equityValue hs / totalValue hs * 100)
              ∨ (h.riskTolerance.getD RiskTolerance.moderate = RiskTolerance.moderate
                ∧ (equityValue hs / totalValue hs * 100 < 40
                    ∨ 70 < equityValue hs / totalValue hs * 100))
              ∨ (h.riskTolerance.getD RiskTolerance.moderate = RiskTolerance.aggressive
                ∧ equityValue hs / totalValue hs * 100 < 70))
      ∧ ∀ a ∈ (evaluateRules now h hs).filter
          (fun a => a.type == AlertType.suitability_mismatch),
          a.severity = AlertSeverity.warning := by
  refine ⟨?_, ?_, ?_⟩
  · rw [evaluateRules_filter_suit]
    unfold suitabilityAlerts
    split <;> simp
  · rw [evaluateRules_filter_suit,
      suitabilityAlerts_ne_nil_iff now h (totalValue hs) hs hpos,
      suitabilityIssue_iff]
  · rw [evaluateRules_filter_suit]
    intro a ha
    unfold suitabilityAlerts at ha
    split at ha <;> simp at ha <;> rcases ha with ⟨-, rfl⟩ <;> rfl

/-- Witness for C3: an `aggressive` household at 25% equity (AAPL equity
25000 of 100000) gets flagged, because 25 < 70. -/
theorem suitability_rule_exact_witness :
    0 < totalValue [wA, wB]
      ∧ (evaluateRules 0 wHh [wA, wB]).filter
          (fun a => a.type == AlertType.suitability_mismatch) ≠ [] := by
  have hpos : 0 < totalValue [wA, wB] := by norm_num [totalValue, hval, wA, wB]
  refine ⟨hpos, ?_⟩
  refine ((suitability_rule_exact 0 wHh [wA, wB] hpos).2.1).mpr (Or.inr (Or.inr ?_))
  constructor
  · rfl
  · norm_num [equityValue, totalValue, hval, wA, wB, List.filter,
      show ("fixed_income" == "equity") = false from rfl,
      show ("equity" == "equity") = true from rfl]

/-- C4: the evaluator emits at most one annual-review alert, exactly when
`daysSinceReview` exceeds 365, `critical` exactly above 400, where
`daysSinceReview` is the floored day difference, 999 when no review date is
on record. -/
theorem annual_review_rule_exact (now : Int) (h : HouseholdRow) (hs : List Holding) :
    ((evaluateRules now h hs).filter
        (fun a => a.type == AlertType.annual_review_due)).length ≤ 1
      ∧ ((evaluateRules now h hs).filter
          (fun a => a.type == AlertType.annual_review_due) ≠ [] ↔
            365 < daysSinceReview now h)
      ∧ (∀ a ∈ (evaluateRules now h hs).filter
          (fun a => a.type == AlertType.annual_review_due),
          a.severity = if 400 < daysSinceReview now h then AlertSeverity.critical
            else AlertSeverity.warning)
      ∧ (∀ t, h.lastReviewDate = some t →
          daysSinceReview now h = (now - t).fdiv msPerDay)
      ∧ (h.lastReviewDate = none → daysSinceReview now h = 999) := by
  refine ⟨?_, ?_, ?_, ?_, ?_⟩
  · rw [evaluateRules_filter_review now h hs]
    simp only [reviewAlerts]
    split <;> simp
  · rw [evaluateRules_filter_review now h hs]
    by_cases hc : 365 < daysSinceReview now h
    · simp [reviewAlerts, hc]
    · simp [reviewAlerts, hc]
  · rw [evaluateRules_filter_review now h hs]
    intro a ha
    simp [reviewAlerts] at ha
    rcases ha with ⟨-, rfl⟩
    rfl
  · intro t ht
    simp [daysSinceReview, ht]
  · intro ht
    simp [daysSinceReview, ht]

/-- A household row with no review date on record. -/
def wHhNone : HouseholdRow :=
  { householdId := 2, householdName := "Jones Family", riskTolerance := none
    lastReviewDate := none, advisorId := 7, advisorName := some "Ann" }

/-- Witness for C4: a household with no review date is always flagged
(999-day default), and one reviewed exactly 365 days ago is not. -/
theorem annual_review_rule_witness :
    ((evaluateRules 0 wHhNone [wA]).filter
        (fun a => a.type == AlertType.annual_review_due) ≠ [])
      ∧ ((evaluateRules (365 * msPerDay) wHh [wA]).filter
          (fun a => a.type == AlertType.annual_review_due) = []) := by
  constructor
  · exact ((annual_review_rule_exact 0 wHhNone [wA]).2.1).mpr (by norm_num [daysSinceReview, wHhNone])
  · have hiff := (annual_review_rule_exact (365 * msPerDay) wHh [wA]).2.1
    by_contra hne
    have h365 := hiff.mp hne
    rw [show daysSinceReview (365 * msPerDay) wHh = 365 from by
      simp [daysSinceReview, wHh, msPerDay]] at h365
    exact absurd h365 (by norm_num)

/-! ### C7: a zero-value portfolio does not skip the household -/

/-- A household row used for the zero-portfolio analysis: no tolerance on
record (so `moderate` applies) and a same-day review. -/
def czH : HouseholdRow :=
  { householdId := 1, householdName := "Empty Household", riskTolerance := none
    lastReviewDate := some 0, advisorId := 7, advisorName := some "Ann" }

/-- A holding whose current value is zero. -/
def czX : Holding :=
  { ticker := "X", companyName := none, currentValue := some 0
    assetClass := none, sector := none, shares := 0, costBasis := none }

/-- Counterexample to C7: a household with one zero-value holding is not
skipped — the suitability rule still fires (moderate default, equity% = 0,
0 < 40). -/
theorem zero_total_household_not_skipped_cex :
    totalValue [czX] = 0
      ∧ (evaluateRules 0 czH [czX]).map (fun a => a.type)
          = [AlertType.suitability_mismatch] := by
  constructor
  · norm_num [totalValue, hval, czX]
  · norm_num [evaluateRules, concentrationAlerts, suitabilityAlerts, reviewAlerts,
      largePositionAlerts, underperformingAlerts, largePositions, gainLossPercent,
      holdingCost, equityPercentage, equityValue, suitabilityIssue, daysSinceReview,
      suitAlert, totalValue, hval, pct, czH, czX, msPerDay, List.filter, List.flatMap]

/-- C7 amended: with zero total portfolio value only the two value-ratio
rules are silent — no concentration and no large-position alert is emitted
(the other rules still run, as the counterexample shows). -/
theorem zero_total_value_rules_silent (now : Int) (h : HouseholdRow)
    (hs : List Holding) (h0 : totalValue hs = 0) :
    (evaluateRules now h hs).filter (fun a => a.type == AlertType.concentration_risk) = []
      ∧ (evaluateRules now h hs).filter (fun a => a.type == AlertType.large_position) = [] := by
  constructor
  · rw [evaluateRules_filter_conc, concentrationAlerts_eq]
    rw [show (hs.filter fun x => decide (10 < pct (totalValue hs) x)) = [] from by
      rw [List.filter_eq_nil_iff]
      intro x hx
      rw [h0]
      simp [pct]]
    rfl
  · rw [evaluateRules_filter_large]
    unfold largePositionAlerts
    rw [if_neg (by rw [h0]; rintro ⟨-, hlt⟩; exact absurd hlt (by norm_num))]

/-- Witness for the amended C7 at the concrete zero-value household. -/
theorem zero_total_value_rules_silent_witness :
    totalValue [czX] = 0
      ∧ (evaluateRules 0 czH [czX]).filter
          (fun a => a.type == AlertType.concentration_risk) = []
      ∧ (evaluateRules 0 czH [czX]).filter
          (fun a => a.type == AlertType.large_position) = [] := by
  have h0 : totalValue [czX] = 0 := by norm_num [totalValue, hval, czX]
  exact ⟨h0, zero_total_value_rules_silent 0 czH [czX] h0⟩

/-! ### C9: alert-id determinism -/

/-- The id format the spec states: a deterministic string built from the
detector kind, the household id, and a disambiguating key (the ticker where
applicable), with no time component. Stated from the spec for comparison
with the ids the evaluator actually produces. -/
def specAlertId (t : AlertType) (householdId : Nat) (key : String) : String :=
  (match t with
    | .concentration_risk => "conc_"
    | .suitability_mismatch => "suit_"
    | .annual_review_due => "review_"
    | .large_position => "large_"
    | .underperforming => "under_") ++ toString householdId ++ key

/-- The disambiguating key of an alert: the ticker of its affected holding,
empty for the household-level detectors. -/
def alertTickerKey (a : ComplianceAlert) : String :=
  match a.affectedHoldings with
  | some (x :: _) => "_" ++ x.ticker
  | _ => ""

lemma conc_map_id_time (now now2 : Int) (h : HouseholdRow) (total : ℚ)
    (hs : List Holding) :
    (concentrationAlerts now h total hs).map ComplianceAlert.id
      = (concentrationAlerts now2 h total hs).map ComplianceAlert.id := by
  rw [concentrationAlerts_eq, concentrationAlerts_eq, List.map_map, List.map_map]
  rfl

lemma suit_map_id_time (now now2 : Int) (h : HouseholdRow) (total : ℚ)
    (hs : List Holding) :
    (suitabilityAlerts now h total hs).map ComplianceAlert.id
      = (suitabilityAlerts now2 h total hs).map ComplianceAlert.id := by
  unfold suitabilityAlerts
  split <;> rfl

lemma large_map_id_time (now now2 : Int) (h : HouseholdRow) (total : ℚ)
    (hs : List Holding) :
    (largePositionAlerts now h total hs).map ComplianceAlert.id
      = (largePositionAlerts now2 h total hs).map ComplianceAlert.id := by
  unfold largePositionAlerts
  split
  · rw [flatMap_guard, flatMap_guard, List.map_map, List.map_map]
    rfl
  · rfl

lemma under_map_id_time (now now2 : Int) (h : HouseholdRow) (total : ℚ)
    (hs : List Holding) :
    (underperformingAlerts now h total hs).map ComplianceAlert.id
      = (underperformingAlerts now2 h total hs).map ComplianceAlert.id := by
  unfold underperformingAlerts
  rw [flatMap_guard, flatMap_guard, List.map_map, List.map_map]
  rfl

lemma mem_concentrationAlerts_shape (now : Int) (h : HouseholdRow) (total : ℚ)
    (hs : List Holding) (a : ComplianceAlert)
    (ha : a ∈ concentrationAlerts now h total hs) :
    ∃ x, a = concAlert now h total x := by
  rw [concentrationAlerts_eq] at ha
  obtain ⟨x, -, rfl⟩ := List.mem_map.mp ha
  exact ⟨x, rfl⟩

lemma mem_suitabilityAlerts_shape (now : Int) (h : HouseholdRow) (total : ℚ)
    (hs : List Holding) (a : ComplianceAlert)
    (ha : a ∈ suitabilityAlerts now h total hs) :
    a = suitAlert now h (h.riskTolerance.getD .moderate) := by
  unfold suitabilityAlerts at ha
  split at ha <;> simp at ha
  exact ha

lemma mem_reviewAlerts_shape (now : Int) (h : HouseholdRow) (a : ComplianceAlert)
    (ha : a ∈ reviewAlerts now h) :
    a = reviewAlert now h (daysSinceReview now h) := by
  unfold reviewAlerts at ha
  split at ha <;> simp at ha
  exact ha

lemma mem_largePositionAlerts_shape (now : Int) (h : HouseholdRow) (total : ℚ)
    (hs : List Holding) (a : ComplianceAlert)
    (ha : a ∈ largePositionAlerts now h total hs) :
    ∃ x, a = largeAlert now h total x := by
  unfold largePositionAlerts at ha
  split at ha
  · rw [flatMap_guard] at ha
    obtain ⟨x, -, rfl⟩ := List.mem_map.mp ha
    exact ⟨x, rfl⟩
  · simp at ha

lemma mem_underperformingAlerts_shape (now : Int) (h : HouseholdRow) (total : ℚ)
    (hs : List Holding) (a : ComplianceAlert)
    (ha : a ∈ underperformingAlerts now h total hs) :
    ∃ x, a = underAlert now h total x := by
  unfold underperformingAlerts at ha
  rw [flatMap_guard] at ha
  obtain ⟨x, -, rfl⟩ := List.mem_map.mp ha
  exact ⟨x, rfl⟩

/-- A household and holding for the id-determinism analysis: one 100%
concentration alert fires at any time, the review alert only once the
review is over a year old. -/
def cxTimeH : HouseholdRow :=
  { householdId := 3, householdName := "Lee Family", riskTolerance := some .aggressive
    lastReviewDate := some 0, advisorId := 7, advisorName := some "Ann" }

/-- The holding for the id-determinism analysis. -/
def cxTimeX : Holding :=
  { ticker := "TSLA", companyName := none, currentValue := some 100
    assetClass := some "equity", sector := none, shares := 0, costBasis := none }

/-- Counterexample to C9 as stated: over the identical aggregate, the scan
at day 0 produces the id set {conc_3_TSLA} while the scan at day 366
produces {conc_3_TSLA, review_3} — the annual-review rule's emission
depends on the evaluation time, so the id sets differ. -/
theorem alert_ids_vary_with_time_cex :
    (evaluateRules 0 cxTimeH [cxTimeX]).map ComplianceAlert.id = ["conc_3_TSLA"]
      ∧ (evaluateRules (366 * msPerDay) cxTimeH [cxTimeX]).map ComplianceAlert.id
          = ["conc_3_TSLA", "review_3"] := by
  constructor
  · norm_num [evaluateRules, concentrationAlerts, suitabilityAlerts, reviewAlerts,
      largePositionAlerts, underperformingAlerts, largePositions, gainLossPercent,
      holdingCost, equityPercentage, equityValue, suitabilityIssue, daysSinceReview,
      concAlert, reviewAlert, totalValue, hval, pct, cxTimeH, cxTimeX, msPerDay,
      List.filter, List.flatMap]
    decide
  · norm_num [evaluateRules, concentrationAlerts, suitabilityAlerts, reviewAlerts,
      largePositionAlerts, underperformingAlerts, largePositions, gainLossPercent,
      holdingCost, equityPercentage, equityValue, suitabilityIssue, daysSinceReview,
      concAlert, reviewAlert, totalValue, hval, pct, cxTimeH, cxTimeX, msPerDay,
      List.filter, List.flatMap]
    decide

/-- C9 amended: every produced id is the deterministic, time-free string
built from the detector kind, the household id and the ticker key, and the
ids of all non-review alerts agree between evaluations at any two times;
only the annual-review alert's presence varies with the clock (its id,
when emitted, is still the fixed `review_` string). -/
theorem alert_ids_deterministic :
    (∀ (now now2 : Int) (h : HouseholdRow) (hs : List Holding),
        ((evaluateRules now h hs).filter fun a =>
            a.type != AlertType.annual_review_due).map ComplianceAlert.id
          = ((evaluateRules now2 h hs).filter fun a =>
              a.type != AlertType.annual_review_due).map ComplianceAlert.id)
      ∧ (∀ (now : Int) (h : HouseholdRow) (hs : List Holding) (a : ComplianceAlert),
          a ∈ evaluateRules now h hs →
            a.id = specAlertId a.type h.householdId (alertTickerKey a)) := by
  constructor
  · intro now now2 h hs
    simp only [evaluateRules, List.filter_append, List.map_append]
    rw [filter_bne_eq_self _ (fun a ha => by
        rw [mem_concentrationAlerts_type now h (totalValue hs) hs a ha]; simp),
      filter_bne_eq_self _ (fun a ha => by
        rw [mem_suitabilityAlerts_type now h (totalValue hs) hs a ha]; simp),
      filter_bne_eq_nil _ (mem_reviewAlerts_type now h),
      filter_bne_eq_self _ (fun a ha => by
        rw [mem_largePositionAlerts_type now h (totalValue hs) hs a ha]; simp),
      filter_bne_eq_self _ (fun a ha => by
        rw [mem_underperformingAlerts_type now h (totalValue hs) hs a ha]; simp),
      filter_bne_eq_self _ (fun a ha => by
        rw [mem_concentrationAlerts_type now2 h (totalValue hs) hs a ha]; simp),
      filter_bne_eq_self _ (fun a ha => by
        rw [mem_suitabilityAlerts_type now2 h (totalValue hs) hs a ha]; simp),
      filter_bne_eq_nil _ (mem_reviewAlerts_type now2 h),
      filter_bne_eq_self _ (fun a ha => by
        rw [mem_largePositionAlerts_type now2 h (totalValue hs) hs a ha]; simp),
      filter_bne_eq_self _ (fun a ha => by
        rw [mem_underperformingAlerts_type now2 h (totalValue hs) hs a ha]; simp)]
    rw [conc_map_id_time now now2 h (totalValue hs) hs,
      suit_map_id_time now now2 h (totalValue hs) hs,
      large_map_id_time now now2 h (totalValue hs) hs,
      under_map_id_time now now2 h (totalValue hs) hs]
  · intro now h hs a hmem
    simp only [evaluateRules, List.mem_append] at hmem
    rcases hmem with ((((hc | hsu) | hr) | hl) | hu)
    · obtain ⟨x, rfl⟩ := mem_concentrationAlerts_shape now h (totalValue hs) hs a hc
      simp [concAlert, specAlertId, alertTickerKey, String.append_assoc]
    · rw [mem_suitabilityAlerts_shape now h (totalValue hs) hs a hsu]
      simp [suitAlert, specAlertId, alertTickerKey]
    · rw [mem_reviewAlerts_shape now h a hr]
      simp [reviewAlert, specAlertId, alertTickerKey]
    · obtain ⟨x, rfl⟩ := mem_largePositionAlerts_shape now h (totalValue hs) hs a hl
      simp [largeAlert, specAlertId, alertTickerKey, String.append_assoc]
    · obtain ⟨x, rfl⟩ := mem_underperformingAlerts_shape now h (totalValue hs) hs a hu
      simp [underAlert, specAlertId, alertTickerKey, String.append_assoc]

/-- Witness for the amended C9: the non-review id lists of the day-0 and
day-366 evaluations coincide, and the concrete concentration alert's id is
the spec's deterministic string. -/
theorem alert_ids_deterministic_witness :
    ((evaluateRules 0 cxTimeH [cxTimeX]).filter fun a =>
        a.type != AlertType.annual_review_due).map ComplianceAlert.id
      = ((evaluateRules (366 * msPerDay) cxTimeH [cxTimeX]).filter fun a =>
          a.type != AlertType.annual_review_due).map ComplianceAlert.id
    ∧ (concAlert 0 cxTimeH (totalValue [cxTimeX]) cxTimeX).id
        = specAlertId (concAlert 0 cxTimeH (totalValue [cxTimeX]) cxTimeX).type
            cxTimeH.householdId
            (alertTickerKey (concAlert 0 cxTimeH (totalValue [cxTimeX]) cxTimeX)) := by
  constructor
  · exact alert_ids_deterministic.1 0 (366 * msPerDay) cxTimeH [cxTimeX]
  · refine alert_ids_deterministic.2 0 cxTimeH [cxTimeX] _ ?_
    simp only [evaluateRules, List.mem_append]
    refine Or.inl (Or.inl (Or.inl (Or.inl ?_)))
    rw [concentrationAlerts_eq]
    refine List.mem_map.mpr ⟨cxTimeX, ?_, rfl⟩
    rw [List.mem_filter]
    refine ⟨List.mem_cons_self _ _, ?_⟩
    norm_num [pct, totalValue, hval, cxTimeX]

/-! ### Ledger lemmas -/

lemma ledgerFind_set_self (m : Ledger) (k : String) (v : AlertHistory) :
    ledgerFind (ledgerSet m k v) k = some v := by
  induction m with
  | nil => simp [ledgerSet, ledgerFind]
  | cons p rest ih =>
    by_cases hk : p.1 = k
    · simp [ledgerSet, hk, ledgerFind]
    · simp [ledgerSet, hk, ledgerFind, ih]

lemma ledgerFind_set_ne (m : Ledger) (k : String) (v : AlertHistory) (i : String)
    (hne : i ≠ k) :
    ledgerFind (ledgerSet m k v) i = ledgerFind m i := by
  induction m with
  | nil => simp [ledgerSet, ledgerFind, Ne.symm hne]
  | cons p rest ih =>
    rcases p with ⟨pk, pv⟩
    by_cases hk : pk = k
    · subst hk
      simp [ledgerSet, ledgerFind, Ne.symm hne]
    · simp [ledgerSet, hk, ledgerFind, ih]

/-- The source's floating `daysSinceLastNotification >= 7` test, done on the
exact rational, is the integer millisecond comparison. -/
lemma seven_le_days_iff (now last : Int) :
    7 ≤ daysSinceLastNotification now last ↔ 7 * msPerDay ≤ now - last := by
  unfold daysSinceLastNotification
  rw [le_div_iff₀ (by norm_num [msPerDay])]
  rw [show ((msPerDay : Int) : ℚ) = ((86400000 : Int) : ℚ) by norm_num [msPerDay],
    show (7 * msPerDay : Int) = 7 * 86400000 by norm_num [msPerDay]]
  constructor <;> intro hx <;> exact_mod_cast hx

lemma processAlert_find_ne (now : Int) (hist : Ledger) (a : ComplianceAlert)
    (i : String) (hne : i ≠ a.id) :
    ledgerFind (processAlert now hist a).2 i = ledgerFind hist i := by
  unfold processAlert
  cases hfind : ledgerFind hist a.id with
  | none => simp [ledgerFind_set_ne hist a.id _ i hne]
  | some e =>
    by_cases hc : 7 ≤ daysSinceLastNotification now e.lastNotified
    · simp [hc, ledgerFind_set_ne hist a.id _ i hne]
    · simp [hc]

/-- If the entry of the incoming alert was already notified at `now`, the
loop body suppresses the alert and leaves the map untouched. -/
lemma processAlert_suppress_at_now (now : Int) (hist : Ledger)
    (a : ComplianceAlert) (e : AlertHistory)
    (hfind : ledgerFind hist a.id = some e) (hln : e.lastNotified = now) :
    processAlert now hist a = (none, hist) := by
  have hc : ¬ 7 ≤ daysSinceLastNotification now e.lastNotified := by
    rw [seven_le_days_iff, hln]
    norm_num [msPerDay]
  unfold processAlert
  rw [hfind]
  simp [hc]

/-- Whatever the loop body does, an entry now carrying `lastNotified = now`
keeps carrying it. -/
lemma processAlert_keeps_now (now : Int) (hist : Ledger) (a : ComplianceAlert)
    (i : String) (e : AlertHistory)
    (hfind : ledgerFind hist i = some e) (hln : e.lastNotified = now) :
    ∃ e2, ledgerFind (processAlert now hist a).2 i = some e2
      ∧ e2.lastNotified = now := by
  by_cases hi : i = a.id
  · subst hi
    rw [processAlert_suppress_at_now now hist a e hfind hln]
    exact ⟨e, hfind, hln⟩
  · rw [processAlert_find_ne now hist a i hi]
    exact ⟨e, hfind, hln⟩

/-- When the loop body includes an alert, its entry ends up with
`lastNotified = now`. -/
lemma processAlert_included_now (now : Int) (hist : Ledger) (a : ComplianceAlert)
    (x : ComplianceAlert) (h1 : Ledger)
    (hp : processAlert now hist a = (some x, h1)) :
    ∃ e2, ledgerFind h1 a.id = some e2 ∧ e2.lastNotified = now := by
  unfold processAlert at hp
  cases hfind : ledgerFind hist a.id with
  | none =>
    rw [hfind] at hp
    simp at hp
    rw [← hp.2, ledgerFind_set_self]
    exact ⟨_, rfl, rfl⟩
  | some e =>
    rw [hfind] at hp
    by_cases hc : 7 ≤ daysSinceLastNotification now e.lastNotified
    · simp [hc] at hp
      rw [← hp.2, ledgerFind_set_self]
      exact ⟨_, rfl, rfl⟩
    · simp [hc] at hp

/-- The loop body only ever includes the alert it is processing. -/
lemma processAlert_included_eq (now : Int) (hist : Ledger) (a : ComplianceAlert)
    (x : ComplianceAlert) (h1 : Ledger)
    (hp : processAlert now hist a = (some x, h1)) : x = a := by
  unfold processAlert at hp
  cases hfind : ledgerFind hist a.id with
  | none =>
    rw [hfind] at hp
    simp at hp
    exact hp.1.symm
  | some e =>
    rw [hfind] at hp
    by_cases hc : 7 ≤ daysSinceLastNotification now e.lastNotified
    · simp [hc] at hp
      exact hp.1.symm
    · simp [hc] at hp

lemma processAlert_none_eq (now : Int) (hist : Ledger) (a : ComplianceAlert)
    (h1 : Ledger) (hp : processAlert now hist a = (none, h1)) : h1 = hist := by
  unfold processAlert at hp
  cases hfind : ledgerFind hist a.id with
  | none =>
    rw [hfind] at hp
    simp at hp
  | some e =>
    rw [hfind] at hp
    by_cases hc : 7 ≤ daysSinceLastNotification now e.lastNotified
    · simp [hc] at hp
    · simp [hc] at hp
      exact hp.symm

/-- Entries whose id is not among the incoming alerts are left untouched by
`getNewAlerts`. -/
lemma getNewAlerts_untouched (now : Int) :
    ∀ (alerts : List ComplianceAlert) (hist : Ledger) (i : String),
      i ∉ alerts.map ComplianceAlert.id →
      ledgerFind (getNewAlerts now alerts hist).2 i = ledgerFind hist i := by
  intro alerts
  induction alerts with
  | nil =>
    intro hist i _
    rfl
  | cons a rest ih =>
    intro hist i hni
    simp only [List.map_cons, List.mem_cons, not_or] at hni
    obtain ⟨hna, hnr⟩ := hni
    rcases hp : processAlert now hist a with ⟨o, h1⟩
    rcases hg : getNewAlerts now rest h1 with ⟨out, h2⟩
    have hres : (getNewAlerts now (a :: rest) hist).2 = h2 := by
      cases o <;> simp [getNewAlerts, hp, hg]
    rw [hres]
    have h2eq : ledgerFind h2 i = ledgerFind h1 i := by
      have hx := ih h1 i hnr
      rw [hg] at hx
      exact hx
    rw [h2eq]
    have hx := processAlert_find_ne now hist a i hna
    rw [hp] at hx
    exact hx

/-- C1: the admit-and-filter transition of `getNewAlerts`, alert by alert.
An unseen id creates a `firstDetected = lastNotified = now` entry and the
alert is included; a tracked id is included (with `lastNotified` updated
and `firstDetected` kept) exactly when at least 7 days of milliseconds
passed since `lastNotified`, and otherwise suppressed with the map
untouched; ids absent from the batch are never modified or removed. -/
theorem getNewAlerts_transition (now : Int) (a : ComplianceAlert)
    (rest : List ComplianceAlert) (hist : Ledger) :
    (ledgerFind hist a.id = none →
      getNewAlerts now (a :: rest) hist =
        (a :: (getNewAlerts now rest (ledgerSet hist a.id ⟨a.id, now, now⟩)).1,
          (getNewAlerts now rest (ledgerSet hist a.id ⟨a.id, now, now⟩)).2))
    ∧ (∀ e, ledgerFind hist a.id = some e →
        (7 * msPerDay ≤ now - e.lastNotified →
          getNewAlerts now (a :: rest) hist =
            (a :: (getNewAlerts now rest
                (ledgerSet hist a.id ⟨e.alertId, e.firstDetected, now⟩)).1,
              (getNewAlerts now rest
                (ledgerSet hist a.id ⟨e.alertId, e.firstDetected, now⟩)).2))
        ∧ (now - e.lastNotified < 7 * msPerDay →
          getNewAlerts now (a :: rest) hist = getNewAlerts now rest hist))
    ∧ (∀ i : String, i ∉ (a :: rest).map ComplianceAlert.id →
        ledgerFind (getNewAlerts now (a :: rest) hist).2 i = ledgerFind hist i) := by
  refine ⟨?_, ?_, ?_⟩
  · intro hfind
    have hp : processAlert now hist a
        = (some a, ledgerSet hist a.id ⟨a.id, now, now⟩) := by
      unfold processAlert
      rw [hfind]
    rcases hg : getNewAlerts now rest (ledgerSet hist a.id ⟨a.id, now, now⟩)
      with ⟨out, h2⟩
    simp [getNewAlerts, hp, hg]
  · intro e hfind
    constructor
    · intro hge
      have hc : 7 ≤ daysSinceLastNotification now e.lastNotified :=
        (seven_le_days_iff now e.lastNotified).mpr hge
      have hp : processAlert now hist a
          = (some a, ledgerSet hist a.id ⟨e.alertId, e.firstDetected, now⟩) := by
        unfold processAlert
        rw [hfind]
        simp [hc]
      rcases hg : getNewAlerts now rest
          (ledgerSet hist a.id ⟨e.alertId, e.firstDetected, now⟩) with ⟨out, h2⟩
      simp [getNewAlerts, hp, hg]
    · intro hlt
      have hc : ¬ 7 ≤ daysSinceLastNotification now e.lastNotified := by
        rw [seven_le_days_iff]
        exact not_le.mpr hlt
      have hp : processAlert now hist a = (none, hist) := by
        unfold processAlert
        rw [hfind]
        simp [hc]
      rcases hg : getNewAlerts now rest hist with ⟨out, h2⟩
      simp [getNewAlerts, hp, hg]
  · exact fun i hni => getNewAlerts_untouched now (a :: rest) hist i hni

/-- An alert for the C1 witness. -/
def wNewAlert : ComplianceAlert :=
  { id := "conc_9_ZZZ", severity := .critical, type := .concentration_risk
    householdId := 9, householdName := "W", advisorId := 1, advisorName := "A"
    title := "T", affectedHoldings := none, createdAt := 0 }

/-- Witness for C1: a first sighting on an empty Ledger notifies and
creates the `firstDetected = lastNotified = now` entry. -/
theorem getNewAlerts_transition_witness :
    ledgerFind ([] : Ledger) wNewAlert.id = none
      ∧ getNewAlerts 0 [wNewAlert] []
          = ([wNewAlert], [(wNewAlert.id, ⟨wNewAlert.id, 0, 0⟩)]) := by
  refine ⟨rfl, ?_⟩
  rw [(getNewAlerts_transition 0 wNewAlert [] []).1 rfl]
  rfl

/-- The inductive heart of C10: the output ids are distinct, and an id whose
entry already says `lastNotified = now` can never be emitted. -/
lemma getNewAlerts_nodup_aux (now : Int) :
    ∀ (alerts : List ComplianceAlert) (hist : Ledger),
      ((getNewAlerts now alerts hist).1.map ComplianceAlert.id).Nodup
      ∧ ∀ i e, ledgerFind hist i = some e → e.lastNotified = now →
          i ∉ (getNewAlerts now alerts hist).1.map ComplianceAlert.id := by
  intro alerts
  induction alerts with
  | nil =>
    intro hist
    constructor
    · simp [getNewAlerts]
    · intro i e _ _
      simp [getNewAlerts]
  | cons a rest ih =>
    intro hist
    rcases hp : processAlert now hist a with ⟨o, h1⟩
    rcases hg : getNewAlerts now rest h1 with ⟨out, h2⟩
    cases o with
    | none =>
      have hres : (getNewAlerts now (a :: rest) hist).1 = out := by
        simp [getNewAlerts, hp, hg]
      have hh1 : h1 = hist := processAlert_none_eq now hist a h1 hp
      constructor
      · rw [hres]
        have hx := (ih h1).1
        rw [hg] at hx
        exact hx
      · intro i e hfind hln
        rw [hres]
        have hx := (ih h1).2 i e (by rw [hh1]; exact hfind) hln
        rw [hg] at hx
        exact hx
    | some x =>
      have hxa : x = a := processAlert_included_eq now hist a x h1 hp
      subst hxa
      have hres : (getNewAlerts now (x :: rest) hist).1 = x :: out := by
        simp [getNewAlerts, hp, hg]
      obtain ⟨e1, hfind1, hln1⟩ := processAlert_included_now now hist x x h1 hp
      constructor
      · rw [hres, List.map_cons, List.nodup_cons]
        constructor
        · have hx := (ih h1).2 x.id e1 hfind1 hln1
          rw [hg] at hx
          exact hx
        · have hx := (ih h1).1
          rw [hg] at hx
          exact hx
      · intro i e hfind hln
        rw [hres, List.map_cons, List.mem_cons]
        rintro (heq | hmem)
        · subst heq
          have hsup := processAlert_suppress_at_now now hist x e hfind hln
          rw [hp] at hsup
          simp at hsup
        · obtain ⟨e2, hf2, hl2⟩ := processAlert_keeps_now now hist x i e hfind hln
          rw [hp] at hf2
          have hx := (ih h1).2 i e2 hf2 hl2
          rw [hg] at hx
          exact hx hmem

/-- C10: for any input batch — duplicate ids included — and any starting
Ledger, the output of `getNewAlerts` contains at most one alert per
distinct alert id. -/
theorem getNewAlerts_ids_nodup (now : Int) (alerts : List ComplianceAlert)
    (hist : Ledger) :
    ((getNewAlerts now alerts hist).1.map ComplianceAlert.id).Nodup :=
  (getNewAlerts_nodup_aux now alerts hist).1

/-! ### C5: the Janitor's retention boundary -/

lemma ledgerFind_not_mem_keys :
    ∀ (m : Ledger) (i : String), i ∉ m.map Prod.fst → ledgerFind m i = none := by
  intro m
  induction m with
  | nil =>
    intro i _
    rfl
  | cons p rest ih =>
    intro i hni
    rcases p with ⟨pk, pv⟩
    simp only [List.map_cons, List.mem_cons, not_or] at hni
    rw [ledgerFind, if_neg (Ne.symm hni.1)]
    exact ih i hni.2

lemma ledgerFind_filter_none (q : String × AlertHistory → Bool) :
    ∀ (m : Ledger) (i : String), ledgerFind m i = none →
      ledgerFind (m.filter q) i = none := by
  intro m
  induction m with
  | nil =>
    intro i _
    rfl
  | cons p rest ih =>
    intro i hf
    rcases p with ⟨pk, pv⟩
    rw [ledgerFind] at hf
    by_cases hk : pk = i
    · simp [hk] at hf
    · rw [if_neg hk] at hf
      by_cases hq : q (pk, pv)
      · simp [List.filter_cons, hq, ledgerFind, hk, ih i hf]
      · simp [List.filter_cons, hq, ih i hf]

/-- A Ledger entry exactly thirty days old. -/
def cexOldEntry : AlertHistory := { alertId := "a", firstDetected := 0, lastNotified := 0 }

/-- Counterexample to C5: at `now = 30 days`, the entry with
`firstDetected = 0` is exactly 30 days old — the claim says it is removed,
but the cleanup (`firstDetected < now - 30 days`, strict) keeps it. -/
theorem cleanup_thirty_day_boundary_cex :
    cleanupOldAlertHistory (30 * msPerDay) [("a", cexOldEntry)] = [("a", cexOldEntry)]
      ∧ (30 * msPerDay : Int) - cexOldEntry.firstDetected = 30 * msPerDay := by
  constructor
  · norm_num [cleanupOldAlertHistory, msPerDay, cexOldEntry, List.filter_cons]
  · norm_num [cexOldEntry]

/-- C5 amended: one cleanup firing removes exactly the entries whose
`firstDetected` is strictly more than 30 days before `now`
(`firstDetected < now − 30 days`), independent of `lastNotified`; every
other entry — an exactly-30-days-old one included — survives unmodified. -/
theorem cleanup_removes_only_strictly_older :
    (∀ (now : Int) (hist : Ledger) (i : String) (e : AlertHistory),
        (hist.map Prod.fst).Nodup → ledgerFind hist i = some e →
        ledgerFind (cleanupOldAlertHistory now hist) i =
          if e.firstDetected < now - 30 * msPerDay then none else some e)
      ∧ (∀ (now : Int) (hist : Ledger) (i : String),
          ledgerFind hist i = none →
          ledgerFind (cleanupOldAlertHistory now hist) i = none) := by
  constructor
  · intro now hist
    induction hist with
    | nil =>
      intro i e _ hf
      simp [ledgerFind] at hf
    | cons p rest ih =>
      intro i e hnd hf
      rcases p with ⟨pk, pv⟩
      rw [List.map_cons, List.nodup_cons] at hnd
      obtain ⟨hpk_notin, hnd_rest⟩ := hnd
      rw [ledgerFind] at hf
      by_cases hk : pk = i
      · rw [if_pos hk] at hf
        injection hf with hfe
        subst hfe
        subst hk
        unfold cleanupOldAlertHistory
        by_cases hold : pv.firstDetected < now - 30 * msPerDay
        · rw [if_pos hold]
          simp only [List.filter_cons, hold, decide_eq_true_eq, if_neg,
            Bool.not_eq_true]
          simp [hold]
          exact ledgerFind_filter_none _ rest pk
            (ledgerFind_not_mem_keys rest pk hpk_notin)
        · rw [if_neg hold]
          simp [List.filter_cons, hold, ledgerFind]
      · rw [if_neg hk] at hf
        unfold cleanupOldAlertHistory at ih ⊢
        by_cases hq : pv.firstDetected < now - 30 * msPerDay
        · simp [List.filter_cons, hq]
          exact ih i e hnd_rest hf
        · simp [List.filter_cons, hq, ledgerFind, hk]
          exact ih i e hnd_rest hf
  · intro now hist i hf
    exact ledgerFind_filter_none _ hist i hf

/-- An entry strictly older than 30 days, with a recent `lastNotified`. -/
def wOldEntry : AlertHistory := { alertId := "a", firstDetected := 0, lastNotified := 5 }

/-- An entry one day old. -/
def wNewEntry : AlertHistory := { alertId := "b", firstDetected := msPerDay, lastNotified := 0 }

/-- Witness for the amended C5: at `now = 30 days + 1 ms`, the 30-day-and-
1-ms-old entry is removed (despite its recent `lastNotified`) and the
one-day-old entry survives unmodified. -/
theorem cleanup_removes_only_strictly_older_witness :
    ledgerFind (cleanupOldAlertHistory (30 * msPerDay + 1)
        [("a", wOldEntry), ("b", wNewEntry)]) "a" = none
      ∧ ledgerFind (cleanupOldAlertHistory (30 * msPerDay + 1)
          [("a", wOldEntry), ("b", wNewEntry)]) "b" = some wNewEntry := by
  constructor
  · rw [cleanup_removes_only_strictly_older.1 (30 * msPerDay + 1)
      [("a", wOldEntry), ("b", wNewEntry)] "a" wOldEntry (by decide) (by decide)]
    rw [if_pos (by norm_num [wOldEntry, msPerDay])]
  · rw [cleanup_removes_only_strictly_older.1 (30 * msPerDay + 1)
      [("a", wOldEntry), ("b", wNewEntry)] "b" wNewEntry (by decide) (by decide)]
    rw [if_neg (by norm_num [wNewEntry, msPerDay])]

/-! ### C6: failure semantics of the scan -/

lemma scanHouseholds_ok_iff (now : Int) (fetch : Nat → Except String (List Holding)) :
    ∀ rows : List HouseholdRow,
      (∃ l, scanHouseholds now fetch rows = Except.ok l) ↔
        ∀ hh ∈ rows, ∃ hs, fetch hh.householdId = Except.ok hs := by
  intro rows
  induction rows with
  | nil => simp [scanHouseholds]
  | cons h rest ih =>
    cases hf : fetch h.householdId with
    | error e =>
      simp [scanHouseholds, hf]
    | ok hs =>
      cases hrec : scanHouseholds now fetch rest with
      | error e =>
        have hnone : ¬ ∃ l, scanHouseholds now fetch rest = Except.ok l := by
          simp [hrec]
        simp only [scanHouseholds, hf, hrec]
        constructor
        · intro hex
          simp at hex
        · intro hall
          exact absurd (ih.mpr fun hh hm => hall hh (List.mem_cons_of_mem h hm)) hnone
      | ok tail =>
        simp only [scanHouseholds, hf, hrec]
        constructor
        · intro _ hh hm
          rcases List.mem_cons.mp hm with rfl | hm2
          · exact ⟨hs, hf⟩
          · exact (ih.mp ⟨tail, hrec⟩) hh hm2
        · intro _
          exact ⟨evaluateHousehold now h hs ++ tail, rfl⟩

/-- The households of the C6 analysis. -/
def cxHh1 : HouseholdRow :=
  { householdId := 1, householdName := "H1", riskTolerance := none
    lastReviewDate := some 0, advisorId := 7, advisorName := some "Ann" }

/-- Second household of the C6 analysis, never reached by the failing scan. -/
def cxHh2 : HouseholdRow :=
  { householdId := 2, householdName := "H2", riskTolerance := some .aggressive
    lastReviewDate := some 0, advisorId := 7, advisorName := some "Ann" }

/-- A holding returned for household 2. -/
def cxDbHolding : Holding :=
  { ticker := "VTI", companyName := none, currentValue := some 50000
    assetClass := some "equity", sector := none, shares := 1, costBasis := some 1 }

/-- A database whose holdings query fails for household 1 only. -/
def cxDb : Db :=
  { households := [cxHh1, cxHh2]
    fetchHoldings := fun hid =>
      if hid = 1 then Except.error "query failed" else Except.ok [cxDbHolding] }

/-- Counterexample to C6: the household loop has no try/catch, so the
failing holdings query of household 1 aborts the whole scan with its error
— household 1 is not skipped, household 2 is never evaluated, and no
result list is returned. -/
theorem scan_per_household_error_not_caught_cex :
    scanComplianceIssues 0 (some cxDb) none = Except.error "query failed"
      ∧ ∀ l, scanComplianceIssues 0 (some cxDb) none ≠ Except.ok l := by
  constructor
  · rfl
  · intro l hok
    simp [scanComplianceIssues, selectedHouseholds, cxDb, scanHouseholds, cxHh1] at hok

/-- C6 amended: a missing database fails the scan fast with
`"Database not available"` and no partial result; and per-household query
errors are not caught — the scan returns a result list exactly when every
selected household's holdings query succeeds, the first failure aborting
the whole call. -/
theorem scan_failure_semantics :
    (∀ (now : Int) (advisorId : Option Nat),
        scanComplianceIssues now none advisorId = Except.error "Database not available")
      ∧ (∀ (now : Int) (d : Db) (advisorId : Option Nat),
          (∃ l, scanComplianceIssues now (some d) advisorId = Except.ok l) ↔
            ∀ hh ∈ selectedHouseholds d advisorId,
              ∃ hs, d.fetchHoldings hh.householdId = Except.ok hs) := by
  constructor
  · intro now advisorId
    rfl
  · intro now d advisorId
    exact scanHouseholds_ok_iff now d.fetchHoldings (selectedHouseholds d advisorId)

/-- A database whose holdings queries always succeed. -/
def okDb : Db :=
  { households := [cxHh2]
    fetchHoldings := fun _ => Except.ok [cxDbHolding] }

/-- Witness for the amended C6 at concrete databases. -/
theorem scan_failure_semantics_witness :
    scanComplianceIssues 0 none none = Except.error "Database not available"
      ∧ ∃ l, scanComplianceIssues 0 (some okDb) none = Except.ok l := by
  constructor
  · exact scan_failure_semantics.1 0 none
  · exact (scan_failure_semantics.2 0 okDb none).mpr
      (fun hh _ => ⟨[cxDbHolding], rfl⟩)

/-! ### C8: notification dispatch -/

/-- C8: nothing is sent exactly when there is neither a critical nor a
warning alert; a sent message is a single consolidated one whose critical
and warning blocks are exactly the severity filters (warnings truncated to
the first five), and no `info` alert ever appears in either block. -/
theorem notify_dispatch_structure (advisorName : String)
    (alerts : List ComplianceAlert) :
    (notifyAdvisorOfAlerts advisorName alerts = none ↔
        alerts.filter (fun a => a.severity == AlertSeverity.critical) = []
          ∧ alerts.filter (fun a => a.severity == AlertSeverity.warning) = [])
      ∧ ∀ m, notifyAdvisorOfAlerts advisorName alerts = some m →
          m.criticalSection = alerts.filter (fun a => a.severity == AlertSeverity.critical)
            ∧ m.warningSection
                = (alerts.filter (fun a => a.severity == AlertSeverity.warning)).take 5
            ∧ (∀ a ∈ m.criticalSection, a.severity = AlertSeverity.critical)
            ∧ (∀ a ∈ m.warningSection, a.severity = AlertSeverity.warning)
            ∧ ∀ a ∈ m.criticalSection ++ m.warningSection,
                a.severity ≠ AlertSeverity.info := by
  constructor
  · unfold notifyAdvisorOfAlerts
    split
    · rename_i hempty
      rw [Bool.and_eq_true, List.isEmpty_iff, List.isEmpty_iff] at hempty
      simp [hempty.1, hempty.2]
    · rename_i hempty
      rw [Bool.and_eq_true, List.isEmpty_iff, List.isEmpty_iff] at hempty
      simp only [not_and] at hempty
      constructor
      · intro hsome
        simp at hsome
      · rintro ⟨h1, h2⟩
        exact absurd h2 (hempty h1)
  · intro m hm
    unfold notifyAdvisorOfAlerts at hm
    split at hm
    · simp at hm
    · simp only [Option.some.injEq] at hm
      subst hm
      refine ⟨rfl, rfl, ?_, ?_, ?_⟩
      · intro a ha
        have := (List.mem_filter.mp ha).2
        simpa using this
      · intro a ha
        have := (List.mem_filter.mp (List.take_subset _ _ ha)).2
        simpa using this
      · intro a ha
        rcases List.mem_append.mp ha with hc | hw
        · have := (List.mem_filter.mp hc).2
          simp at this
          simp [this]
        · have := (List.mem_filter.mp (List.take_subset _ _ hw)).2
          simp at this
          simp [this]

/-- Alerts of all three severities for the C8 witness. -/
def wCrit : ComplianceAlert :=
  { id := "review_5", severity := .critical, type := .annual_review_due
    householdId := 5, householdName := "H", advisorId := 7, advisorName := "Ann"
    title := "Annual Review Overdue", affectedHoldings := none, createdAt := 0 }

/-- A warning alert for the C8 witness. -/
def wWarn : ComplianceAlert :=
  { id := "suit_5", severity := .warning, type := .suitability_mismatch
    householdId := 5, householdName := "H", advisorId := 7, advisorName := "Ann"
    title := "Risk Profile Mismatch: MODERATE", affectedHoldings := none, createdAt := 0 }

/-- An info alert for the C8 witness. -/
def wInfo : ComplianceAlert :=
  { id := "large_5_VTI", severity := .info, type := .large_position
    householdId := 5, householdName := "H", advisorId := 7, advisorName := "Ann"
    title := "Large Position: VTI", affectedHoldings := none, createdAt := 0 }

/-- Witness for C8: on a mixed batch the sections are the severity filters
and the info alert is excluded; on an info-only batch nothing is sent. -/
theorem notify_dispatch_structure_witness :
    (∀ m, notifyAdvisorOfAlerts "Ann" [wCrit, wWarn, wInfo] = some m →
        m.criticalSection = [wCrit] ∧ m.warningSection = [wWarn])
      ∧ notifyAdvisorOfAlerts "Ann" [wInfo] = none := by
  constructor
  · intro m hm
    have h := (notify_dispatch_structure "Ann" [wCrit, wWarn, wInfo]).2 m hm
    refine ⟨?_, ?_⟩
    · rw [h.1]
      decide
    · rw [h.2.1]
      decide
  · exact ((notify_dispatch_structure "Ann" [wInfo]).1).mpr (by decide)

end FaAdvisor
